import Mathlib

/-!
Verification of the boot / shutdown supervisor in trinity/main.py.

The module is straight-line imperative code whose observable behavior is the
ordered sequence of side effects it performs (starting the broker, spawning the
worker process, tearing plugins down, stopping endpoints, ...) together with the
point at which it aborts, if any.  We embed it shallowly: every function of the
source becomes a Lean function returning the list of effects it performs in
program order, and the outcomes of external collaborators (configuration
parsing, data-directory state, worker liveness after a join, the event that
ends the main loop) are explicit parameters.
-/

namespace Trinity

/-- Observable side effects performed by the supervisor, in program order. -/
inductive Effect where
  | createEventBus
  | createEndpoint (name : String)
  | endpointConnect (name : String)
  | pluginRegister
  | amendArgparser
  | setupStderrLogging
  | setupLogLevels
  | setupFileLogging
  | displayLaunchLogs
  | callFunc
  | listenerStart
  | eventBusStart
  | processSpawn
  | subscribeShutdown
  | pluginPrepare
  | runLoop
  | logInfo (msg : String)
  | pluginShutdownBlocking
  | pluginShutdownAsync
  | endpointStop (name : String)
  | eventBusStop
  | processJoin (timeout : Nat)
  | killProcessGracefully
  | parserExit (msg : String)
  | exitSignalWait
deriving DecidableEq, Repr

/-- Boolean discriminator for the worker-spawn effect. -/
def Effect.isSpawn : Effect → Bool
  | .processSpawn => true
  | _ => false

/-- Boolean discriminator for the shutdown-handler subscription effect. -/
def Effect.isSubscribe : Effect → Bool
  | .subscribeShutdown => true
  | _ => false

/-- Boolean discriminator for the plugin-host prepare effect. -/
def Effect.isPrepare : Effect → Bool
  | .pluginPrepare => true
  | _ => false

/-- Boolean discriminator for the broker-start effect. -/
def Effect.isBusStart : Effect → Bool
  | .eventBusStart => true
  | _ => false

/-- Boolean discriminator for the blocking plugin-shutdown effect. -/
def Effect.isPluginShutdownBlocking : Effect → Bool
  | .pluginShutdownBlocking => true
  | _ => false

/-- Boolean discriminator for the forceful-termination primitive. -/
def Effect.isKillProc : Effect → Bool
  | .killProcessGracefully => true
  | _ => false

/-- Boolean discriminator for the bounded worker join. -/
def Effect.isJoin : Effect → Bool
  | .processJoin _ => true
  | _ => false

/-- Boolean discriminator for stopping the main endpoint. -/
def Effect.isMainEndpointStop : Effect → Bool
  | .endpointStop n => n = "main"
  | _ => false

/-- Python truthiness of the optional `reason` string: `None` and `""` are falsy. -/
def strTruthy : Option String → Bool
  | none => false
  | some s => !(s == "")

/-- `hint = f"({reason})" if reason else f""` from kill_trinity_gracefully. -/
def hintOf (reason : Option String) : String :=
  match reason with
  | none => ""
  | some r => if r == "" then "" else "(" ++ r ++ ")"

/-- Effect trace of `kill_trinity_gracefully` (main.py lines 272-296).
`aliveAfterJoin` is the value `networking_process.is_alive()` returns after the
2-second join. -/
def kill_trinity_gracefully (aliveAfterJoin : Bool) (reason : Option String) :
    List Effect :=
  [.logInfo ("Shutting down Trinity " ++ hintOf reason),
   .pluginShutdownBlocking,
   .endpointStop "main",
   .eventBusStop,
   .processJoin 2]
  ++ (if aliveAfterJoin then [.killProcessGracefully] else [])
  ++ [.logInfo "Networking process (pid=%d) terminated",
      .parserExit ("Trinity shutdown complete " ++ hintOf reason ++ "\n")]

/-- Effect trace of `handle_networking_exit` (main.py lines 326-332): once the
exit signal fires, the worker awaits the plugin-host shutdown and then stops its
endpoint. -/
def handle_networking_exit : List Effect :=
  [.exitSignalWait, .pluginShutdownAsync, .endpointStop "networking"]

/-- How the main-process event loop ends.  `shutdownEvent r alive` is a
ShutdownRequest received on the main endpoint (handler runs to completion);
`keyboardInterrupt alive` is a KeyboardInterrupt caught by the try/except around
`loop.run_forever()`; `interruptDuringShutdownHandler r k alive1 alive2` models a
KeyboardInterrupt raised while the ShutdownRequest handler is still running
inside `loop.run_forever()` after its first `k` effects: the exception aborts
the handler, propagates out of `run_forever`, and the except clause at line 261
invokes `kill_trinity_gracefully` a second time.  The `alive` flags give the
worker liveness observed after each join. -/
inductive LoopOutcome where
  | shutdownEvent (reason : String) (alive : Bool)
  | keyboardInterrupt (alive : Bool)
  | interruptDuringShutdownHandler (reason : String) (k : Nat) (alive1 alive2 : Bool)
deriving DecidableEq, Repr

/-- Effects performed during and after `loop.run_forever()` in trinity_boot
(main.py lines 257-269), depending on how the loop ends. -/
def loop_effects : LoopOutcome → List Effect
  | .shutdownEvent r alive => kill_trinity_gracefully alive (some r)
  | .keyboardInterrupt alive =>
      kill_trinity_gracefully alive (some "CTRL+C / Keyboard Interrupt")
  | .interruptDuringShutdownHandler r k alive1 alive2 =>
      (kill_trinity_gracefully alive1 (some r)).take k
        ++ kill_trinity_gracefully alive2 (some "CTRL+C / Keyboard Interrupt")

/-- Effect trace of `trinity_boot` (main.py lines 219-269): start the log
listener, create the networking endpoint, start the broker, spawn the worker,
subscribe the shutdown handler, prepare the plugin host, run the loop. -/
def trinity_boot (outcome : LoopOutcome) : List Effect :=
  [.listenerStart,
   .createEndpoint "networking",
   .eventBusStart,
   .processSpawn,
   .logInfo "Started networking process (pid=%d)",
   .subscribeShutdown,
   .pluginPrepare,
   .runLoop]
  ++ loop_effects outcome

/-- Modelled from the spec: the network-id constants live in trinity/constants.py,
which is not part of the supervised core; the spec only requires two distinct
preconfigured identifiers (mainnet and ropsten). -/
def MAINNET_NETWORK_ID : Nat := 1

/-- Modelled from the spec: see `MAINNET_NETWORK_ID`. -/
def ROPSTEN_NETWORK_ID : Nat := 3

/-- `PRECONFIGURED_NETWORKS = {MAINNET_NETWORK_ID, ROPSTEN_NETWORK_ID}` (main.py line 74). -/
def PRECONFIGURED_NETWORKS : List Nat := [MAINNET_NETWORK_ID, ROPSTEN_NETWORK_ID]

/-- The parsed command-line arguments, restricted to the fields main.py reads.
`log_levels` is the optional per-logger level mapping; a key of `none` is the
blanket (default, `None`-keyed) entry.  `func` marks a plugin-provided
subcommand being present on the namespace. -/
structure Args where
  network_id : Nat
  log_levels : Option (List (Option String × Nat))
  stderr_log_level : Option Nat
  file_log_level : Option Nat
  profile : Bool
  func : Option Unit
deriving DecidableEq, Repr

/-- Outcome of `initialize_data_dir` (external collaborator): success, or one of
the two exceptions main.py catches. -/
inductive InitOutcome where
  | ok
  | ambigiousFileSystem
  | missingPath (path : String)
deriving DecidableEq, Repr

/-- Outcomes of the external collaborators main.py consults, fixed before the
run: whether `TrinityConfig.from_parser_args` raises AmbigiousFileSystem,
whether the data directory is already set up, the outcome of initializing it,
the configured and on-disk database engines, and the levels the two logging
setup helpers leave on their loggers. -/
structure Env where
  config_parse_ambigious : Bool
  data_dir_ready : Bool
  init_outcome : InitOutcome
  db_engine : String
  on_disk_database_engine : String
  database_dir : String
  stderr_logger_level : Nat
  file_logger_level : Nat
deriving DecidableEq, Repr

/-- The fatal, user-facing startup errors of main.py, tagged by cause. -/
inductive MainError where
  | unsupportedNetwork (network_id : Nat)
  | ambigousLoggingConfig
  | ambigiousFilesystem
  | missingPath (path : String)
  | dbEngineMismatch (on_disk_engine config_engine database_dir : String)
deriving DecidableEq, Repr

/-- The banner text of TRINITY_AMBIGIOUS_FILESYSTEM_INFO (main.py lines 87-98). -/
def TRINITY_AMBIGIOUS_FILESYSTEM_INFO : String :=
  "Could not initialize data directory\n\n"
  ++ "   One of these conditions must be met:\n"
  ++ "   * HOME environment variable set\n"
  ++ "   * XDG_TRINITY_ROOT environment variable set\n"
  ++ "   * TRINITY_DATA_DIR environment variable set\n"
  ++ "   * --data-dir command line argument is passed\n"
  ++ "\n"
  ++ "   In case the data directory is outside of the trinity root directory\n"
  ++ "   Make sure all paths are pre-initialized as Trinity won't attempt\n"
  ++ "   to create directories outside of the trinity root directory\n"

/-- The user-facing message each fatal error is reported with (the
NotImplementedError text at lines 113-116 and the parser.error texts at lines
124-129, 145, 154, 156-162 and 170-177 of main.py). -/
def MainError.message : MainError → String
  | .unsupportedNetwork nid =>
      "Unsupported network id: " ++ toString nid
        ++ ".  Only the ropsten and mainnet networks are supported."
  | .ambigousLoggingConfig =>
      "\nAmbiguous logging configuration: The logging level for stderr was "
        ++ "configured with both `--stderr-log-level` and `--log-level`. "
        ++ "Please remove one of these flags"
  | .ambigiousFilesystem => TRINITY_AMBIGIOUS_FILESYSTEM_INFO
  | .missingPath p =>
      "\nIt appears that " ++ p
        ++ " does not exist. Trinity does not attempt to create directories outside of its root path. Either manually create the path or ensure you are using a data directory inside the XDG_TRINITY_ROOT path"
  | .dbEngineMismatch on_disk cfg dir =>
      "\nDatabase engine mismatch.  The on disk database uses the `"
        ++ on_disk ++ "` but trinity is configured to use the `" ++ cfg
        ++ ".  You must either re-run trinity using the engine "
        ++ "currently used with the on-disk database or remove the database "
        ++ "from `" ++ dir ++ "`."

/-- `has_ambigous_logging_config` (main.py lines 118-122):
`args.log_levels is not None and None in args.log_levels and
args.stderr_log_level is not None`. -/
def has_ambigous_logging_config (args : Args) : Bool :=
  args.log_levels.isSome
    && (args.log_levels.getD []).any (fun kv => kv.1.isNone)
    && args.stderr_log_level.isSome

/-- Python truthiness of `args.log_levels` at line 139: `None` and the empty
mapping are falsy. -/
def log_levels_truthy (args : Args) : Bool :=
  match args.log_levels with
  | none => false
  | some l => !l.isEmpty

/-- The values of `(args.log_levels or {}).values()`. -/
def configured_level_values (log_levels : Option (List (Option String × Nat))) :
    List Nat :=
  (log_levels.getD []).map Prod.snd

/-- `min(stderr_logger.level, file_logger.level, *(args.log_levels or {}).values())`
(main.py lines 190-194). -/
def min_configured_log_level (stderr_level file_level : Nat)
    (log_levels : Option (List (Option String × Nat))) : Nat :=
  List.foldl min (min stderr_level file_level)
    (configured_level_values log_levels)

/-- The tail of `main` from line 166 on, given the effects `tr` already
performed: the database-engine check, file/queue logging setup, launch logs,
and the dispatch to either the plugin subcommand or `trinity_boot`
(main.py lines 164-216). -/
def main_after_config (args : Args) (env : Env) (outcome : LoopOutcome)
    (tr : List Effect) : List Effect × Option MainError :=
  if env.db_engine ≠ env.on_disk_database_engine then
    (tr, some (.dbEngineMismatch env.on_disk_database_engine env.db_engine
               env.database_dir))
  else
    let tr := tr ++ [.setupFileLogging, .displayLaunchLogs]
    match args.func with
    | some _ => (tr ++ [.callFunc], none)
    | none => (tr ++ trinity_boot outcome, none)

/-- Effect trace and abort outcome of `main` (main.py lines 101-216): build the
broker, endpoint and plugin host; validate the network id; reject ambiguous
logging configuration; set up stderr logging and per-logger levels; parse the
configuration; initialize the data directory if needed; then continue with
`main_after_config`. -/
def main (args : Args) (env : Env) (outcome : LoopOutcome) :
    List Effect × Option MainError :=
  let tr0 : List Effect :=
    [.createEventBus, .createEndpoint "main", .endpointConnect "main",
     .pluginRegister, .amendArgparser]
  if args.network_id ∉ PRECONFIGURED_NETWORKS then
    (tr0, some (.unsupportedNetwork args.network_id))
  else if has_ambigous_logging_config args then
    (tr0, some .ambigousLoggingConfig)
  else
    let tr1 := tr0 ++ [.setupStderrLogging]
      ++ (if log_levels_truthy args then [.setupLogLevels] else [])
    if env.config_parse_ambigious then
      (tr1, some .ambigiousFilesystem)
    else if env.data_dir_ready then
      main_after_config args env outcome tr1
    else
      match env.init_outcome with
      | .ok => main_after_config args env outcome tr1
      | .ambigiousFileSystem => (tr1, some .ambigiousFilesystem)
      | .missingPath p => (tr1, some (.missingPath p))

/-! ## Concrete instances used to evaluate the model -/

/-- A well-formed argument set on the mainnet network, no subcommand. -/
def argsMainnet : Args :=
  { network_id := MAINNET_NETWORK_ID, log_levels := none, stderr_log_level := none,
    file_log_level := none, profile := false, func := none }

/-- An argument set with an unsupported network id. -/
def argsUnsupported : Args :=
  { argsMainnet with network_id := 42 }

/-- An argument set supplying both a blanket per-logger level and an explicit
stderr level. -/
def argsAmbLog : Args :=
  { argsMainnet with log_levels := some [(none, 5)], stderr_log_level := some 10 }

/-- An argument set carrying a plugin-provided subcommand. -/
def argsFunc : Args :=
  { argsMainnet with func := some () }

/-- An environment in which every external collaborator succeeds. -/
def envDefault : Env :=
  { config_parse_ambigious := false, data_dir_ready := true,
    init_outcome := InitOutcome.ok, db_engine := "leveldb",
    on_disk_database_engine := "leveldb", database_dir := "/data",
    stderr_logger_level := 20, file_logger_level := 10 }

/-- An environment in which data-directory setup fails with a missing path. -/
def envMissing : Env :=
  { envDefault with data_dir_ready := false, init_outcome := InitOutcome.missingPath "/tmp/x" }

/-- A loop outcome: a single shutdown event, worker exits within the grace
period. -/
def outcomeDefault : LoopOutcome := LoopOutcome.shutdownEvent "test" false

/-! ## Helper lemmas -/

lemma countP_take_zero {p : Effect → Bool} {l : List Effect}
    (h : List.countP p l = 0) (k : Nat) : List.countP p (l.take k) = 0 := by
  have := (List.take_sublist k l).countP_le p
  omega

lemma countP_kill_spawn (a : Bool) (r : Option String) :
    List.countP Effect.isSpawn (kill_trinity_gracefully a r) = 0 := by
  cases a <;> rfl

lemma countP_kill_subscribe (a : Bool) (r : Option String) :
    List.countP Effect.isSubscribe (kill_trinity_gracefully a r) = 0 := by
  cases a <;> rfl

lemma countP_kill_prepare (a : Bool) (r : Option String) :
    List.countP Effect.isPrepare (kill_trinity_gracefully a r) = 0 := by
  cases a <;> rfl

lemma countP_kill_busStart (a : Bool) (r : Option String) :
    List.countP Effect.isBusStart (kill_trinity_gracefully a r) = 0 := by
  cases a <;> rfl

lemma countP_loop_effects_zero {p : Effect → Bool}
    (h : ∀ a r, List.countP p (kill_trinity_gracefully a r) = 0) :
    ∀ o : LoopOutcome, List.countP p (loop_effects o) = 0 := by
  intro o
  cases o with
  | shutdownEvent r a => exact h a (some r)
  | keyboardInterrupt a => exact h a (some "CTRL+C / Keyboard Interrupt")
  | interruptDuringShutdownHandler r k a1 a2 =>
      simp [loop_effects, List.countP_append, h,
        countP_take_zero (h a1 (some r)) k]

/-! ## Claims about the Shutdown Protocol -/

/-- Claim C2: in every shutdown execution the Plugin Host's shutdown completes
before the owning Event Channel is stopped: `kill_trinity_gracefully` performs
the blocking plugin shutdown before stopping the main endpoint and, after that,
the broker; `handle_networking_exit` awaits the asynchronous plugin shutdown
before stopping the networking endpoint. -/
theorem claim_C2_plugin_shutdown_precedes_channel_stop :
    ∀ (alive : Bool) (reason : Option String),
      (∃ i j k : Nat, i < j ∧ j < k ∧
        (kill_trinity_gracefully alive reason)[i]? = some Effect.pluginShutdownBlocking ∧
        (kill_trinity_gracefully alive reason)[j]? = some (Effect.endpointStop "main") ∧
        (kill_trinity_gracefully alive reason)[k]? = some Effect.eventBusStop) ∧
      (∃ i j : Nat, i < j ∧
        handle_networking_exit[i]? = some Effect.pluginShutdownAsync ∧
        handle_networking_exit[j]? = some (Effect.endpointStop "networking")) := by
  intro alive reason
  exact ⟨⟨1, 2, 3, by omega, by omega, rfl, rfl, rfl⟩,
         ⟨1, 2, by omega, rfl, rfl⟩⟩

/-- Claim C3: during main-process shutdown the worker is joined with timeout 2
before any forceful termination; the forceful primitive runs only when the
worker is still alive after the join (its unique occurrence is right after the
unique join), and not at all when the worker has already exited. -/
theorem claim_C3_grace_period_before_forceful_termination :
    ∀ reason : Option String,
      ((kill_trinity_gracefully true reason)[4]? = some (.processJoin 2) ∧
       (kill_trinity_gracefully true reason)[5]? = some .killProcessGracefully ∧
       List.countP Effect.isJoin (kill_trinity_gracefully true reason) = 1 ∧
       List.countP Effect.isKillProc (kill_trinity_gracefully true reason) = 1) ∧
      ((kill_trinity_gracefully false reason)[4]? = some (.processJoin 2) ∧
       List.countP Effect.isKillProc (kill_trinity_gracefully false reason) = 0) := by
  intro reason
  exact ⟨⟨rfl, rfl, rfl, rfl⟩, ⟨rfl, rfl⟩⟩

/-- Claim C9: for a non-empty reason `r`, the shutdown log line carries the
parenthesized hint `(r)`, the final exit message embeds `(r)`, and that exit
message is the last effect, after plugin shutdown, endpoint and broker stop,
the worker join, the conditional forceful termination, and the termination log. -/
theorem claim_C9_reason_in_shutdown_messages :
    ∀ (alive : Bool) (r : String), r ≠ "" →
      ∃ front,
        kill_trinity_gracefully alive (some r)
          = front
            ++ [.parserExit ("Trinity shutdown complete " ++ ("(" ++ r ++ ")") ++ "\n")] ∧
        front[0]? = some (.logInfo ("Shutting down Trinity " ++ ("(" ++ r ++ ")"))) ∧
        Effect.pluginShutdownBlocking ∈ front ∧
        Effect.endpointStop "main" ∈ front ∧
        Effect.eventBusStop ∈ front ∧
        Effect.processJoin 2 ∈ front ∧
        (alive = true → Effect.killProcessGracefully ∈ front) ∧
        Effect.logInfo "Networking process (pid=%d) terminated" ∈ front := by
  intro alive r hr
  have hhint : hintOf (some r) = "(" ++ r ++ ")" := by
    simp [hintOf, hr]
  cases alive with
  | false =>
      refine ⟨[.logInfo ("Shutting down Trinity " ++ ("(" ++ r ++ ")")),
               .pluginShutdownBlocking, .endpointStop "main", .eventBusStop,
               .processJoin 2,
               .logInfo "Networking process (pid=%d) terminated"],
              ?_, rfl, ?_, ?_, ?_, ?_, ?_, ?_⟩ <;>
        simp [kill_trinity_gracefully, hhint]
  | true =>
      refine ⟨[.logInfo ("Shutting down Trinity " ++ ("(" ++ r ++ ")")),
               .pluginShutdownBlocking, .endpointStop "main", .eventBusStop,
               .processJoin 2, .killProcessGracefully,
               .logInfo "Networking process (pid=%d) terminated"],
              ?_, rfl, ?_, ?_, ?_, ?_, ?_, ?_⟩ <;>
        simp [kill_trinity_gracefully, hhint]

/-- Witness for claim C9 at the concrete reason "test" with a still-alive
worker. -/
theorem claim_C9_reason_in_shutdown_messages_witness :
    ∃ front,
      kill_trinity_gracefully true (some "test")
        = front
          ++ [.parserExit ("Trinity shutdown complete " ++ ("(" ++ "test" ++ ")") ++ "\n")] ∧
      front[0]? = some (.logInfo ("Shutting down Trinity " ++ ("(" ++ "test" ++ ")"))) ∧
      Effect.pluginShutdownBlocking ∈ front ∧
      Effect.endpointStop "main" ∈ front ∧
      Effect.eventBusStop ∈ front ∧
      Effect.processJoin 2 ∈ front ∧
      (true = true → Effect.killProcessGracefully ∈ front) ∧
      Effect.logInfo "Networking process (pid=%d) terminated" ∈ front :=
  claim_C9_reason_in_shutdown_messages true "test" (by decide)

/-- Claim C1 (violated by the code): the source installs two independent
shutdown triggers with no once-only guard — if a KeyboardInterrupt arrives
while the ShutdownRequest handler has performed its first three effects, the
except clause at line 261 re-enters `kill_trinity_gracefully`, so the blocking
plugin shutdown and the main-endpoint stop each execute twice; a second trigger
is not a no-op. -/
theorem claim_C1_second_trigger_reruns_teardown :
    List.countP Effect.isPluginShutdownBlocking
        (trinity_boot (.interruptDuringShutdownHandler "test" 3 true true)) = 2 ∧
    List.countP Effect.isMainEndpointStop
        (trinity_boot (.interruptDuringShutdownHandler "test" 3 true true)) = 2 :=
  ⟨rfl, rfl⟩

/-! ## Claims about boot sequencing and the log-level computation -/

lemma foldl_min_le_init (l : List Nat) : ∀ a : Nat, List.foldl min a l ≤ a := by
  induction l with
  | nil => intro a; simp
  | cons b t ih =>
      intro a
      exact le_trans (ih (min a b)) (min_le_left a b)

lemma foldl_min_le_mem (l : List Nat) :
    ∀ (a x : Nat), x ∈ l → List.foldl min a l ≤ x := by
  induction l with
  | nil => intro a x hx; cases hx
  | cons b t ih =>
      intro a x hx
      rcases List.mem_cons.mp hx with h | h
      · subst h
        exact le_trans (foldl_min_le_init t (min a x)) (min_le_right a x)
      · exact ih (min a b) x h

lemma foldl_min_init_or_mem (l : List Nat) :
    ∀ a : Nat, List.foldl min a l = a ∨ List.foldl min a l ∈ l := by
  induction l with
  | nil => intro a; left; rfl
  | cons b t ih =>
      intro a
      rw [List.foldl_cons]
      rcases ih (min a b) with h | h
      · rcases le_total a b with hab | hba
        · left; rw [h, min_eq_left hab]
        · right; rw [h, min_eq_right hba]; exact List.mem_cons_self b t
      · right; exact List.mem_cons_of_mem b h

/-- Claim C5: the log level handed to the worker is the exact minimum over the
stderr logger's level, the file logger's level and every value of the
configured per-logger mapping: it is one of those values, it is a lower bound
for all of them, and with no per-logger levels it is just the minimum of the
stderr and file levels. -/
theorem claim_C5_min_log_level_exact :
    ∀ (s f : Nat) (ll : Option (List (Option String × Nat))),
      min_configured_log_level s f ll ∈ s :: f :: configured_level_values ll ∧
      (∀ x, x ∈ s :: f :: configured_level_values ll →
        min_configured_log_level s f ll ≤ x) ∧
      (ll = none → min_configured_log_level s f ll = min s f) := by
  intro s f ll
  have he : min_configured_log_level s f ll
      = List.foldl min (min s f) (configured_level_values ll) := rfl
  refine ⟨?_, ?_, ?_⟩
  · rw [he]
    rcases foldl_min_init_or_mem (configured_level_values ll) (min s f) with h | h
    · rcases le_total s f with hsf | hfs
      · rw [h, min_eq_left hsf]; exact List.mem_cons_self _ _
      · rw [h, min_eq_right hfs]
        exact List.mem_cons_of_mem _ (List.mem_cons_self _ _)
    · exact List.mem_cons_of_mem _ (List.mem_cons_of_mem _ h)
  · intro x hx
    rw [he]
    rcases List.mem_cons.mp hx with h | h
    · subst h
      exact le_trans (foldl_min_le_init _ _) (min_le_left _ _)
    · rcases List.mem_cons.mp h with h2 | h2
      · subst h2
        exact le_trans (foldl_min_le_init _ _) (min_le_right _ _)
      · exact foldl_min_le_mem _ _ x h2
  · intro h; subst h; rfl

/-- Witness for claim C5: with stderr level 20, file level 10 and one
configured logger at level 5, the result is a lower bound of 5; with no
per-logger levels it equals `min 20 10`. -/
theorem claim_C5_min_log_level_exact_witness :
    min_configured_log_level 20 10 (some [(some "p2p", 5)]) ≤ 5 ∧
    min_configured_log_level 20 10 none = min 20 10 :=
  ⟨(claim_C5_min_log_level_exact 20 10 (some [(some "p2p", 5)])).2.1 5 (by decide),
   (claim_C5_min_log_level_exact 20 10 none).2.2 rfl⟩

/-- Claim C6: in `trinity_boot` the broker is started before the worker is
spawned; the worker is spawned exactly once; exactly one shutdown handler is
subscribed, after the spawn; and the plugin host is prepared exactly once,
after the subscription and before the event loop runs — whatever ends the
loop. -/
theorem claim_C6_boot_order_and_multiplicity :
    ∀ o : LoopOutcome,
      (trinity_boot o)[2]? = some Effect.eventBusStart ∧
      (trinity_boot o)[3]? = some Effect.processSpawn ∧
      (trinity_boot o)[5]? = some Effect.subscribeShutdown ∧
      (trinity_boot o)[6]? = some Effect.pluginPrepare ∧
      (trinity_boot o)[7]? = some Effect.runLoop ∧
      List.countP Effect.isSpawn (trinity_boot o) = 1 ∧
      List.countP Effect.isSubscribe (trinity_boot o) = 1 ∧
      List.countP Effect.isPrepare (trinity_boot o) = 1 ∧
      List.countP Effect.isBusStart (trinity_boot o) = 1 := by
  intro o
  have hsp := countP_loop_effects_zero countP_kill_spawn o
  have hsub := countP_loop_effects_zero countP_kill_subscribe o
  have hpre := countP_loop_effects_zero countP_kill_prepare o
  have hbus := countP_loop_effects_zero countP_kill_busStart o
  refine ⟨?_, ?_, ?_, ?_, ?_, ?_, ?_, ?_, ?_⟩ <;>
    simp [trinity_boot, List.countP_append, List.countP_cons, hsp, hsub, hpre,
      hbus, Effect.isSpawn, Effect.isSubscribe, Effect.isPrepare, Effect.isBusStart]

/-! ## Claims about startup validation in `main` -/

/-- Claim C4: supported network ids pass network validation; unsupported ones
abort `main` with the unsupported-network error before the broker is started
and before any worker process is spawned. -/
theorem claim_C4_network_validation :
    ∀ (args : Args) (env : Env) (outcome : LoopOutcome),
      (args.network_id ∈ PRECONFIGURED_NETWORKS →
        ∀ n, (main args env outcome).2 ≠ some (MainError.unsupportedNetwork n)) ∧
      (args.network_id ∉ PRECONFIGURED_NETWORKS →
        (main args env outcome).2
            = some (MainError.unsupportedNetwork args.network_id) ∧
        Effect.eventBusStart ∉ (main args env outcome).1 ∧
        Effect.processSpawn ∉ (main args env outcome).1) := by
  intro args env outcome
  constructor
  · intro h n
    cases hA : has_ambigous_logging_config args <;>
    cases hC : env.config_parse_ambigious <;>
    cases hD : env.data_dir_ready <;>
    cases hI : env.init_outcome <;>
    by_cases hDb : env.db_engine = env.on_disk_database_engine <;>
    cases hF : args.func <;>
      simp [main, main_after_config, hA, hC, hD, hI, hDb, hF, h]
  · intro h
    refine ⟨?_, ?_, ?_⟩ <;> simp [main, h]

/-- Witness for claim C4: network id 42 is rejected with the matching error and
no spawn, while the mainnet id never produces the unsupported-network error. -/
theorem claim_C4_network_validation_witness :
    (main argsUnsupported envDefault outcomeDefault).2
        = some (MainError.unsupportedNetwork 42) ∧
    Effect.processSpawn ∉ (main argsUnsupported envDefault outcomeDefault).1 ∧
    (main argsMainnet envDefault outcomeDefault).2
        ≠ some (MainError.unsupportedNetwork 42) :=
  have h1 := (claim_C4_network_validation argsUnsupported envDefault
    outcomeDefault).2 (by decide)
  have h2 := (claim_C4_network_validation argsMainnet envDefault
    outcomeDefault).1 (by decide) 42
  ⟨h1.1, h1.2.2, h2⟩

lemma has_ambigous_iff (args : Args) :
    has_ambigous_logging_config args = true ↔
      ∃ m, args.log_levels = some m ∧ (∃ v, (none, v) ∈ m) ∧
        ∃ s, args.stderr_log_level = some s := by
  cases hll : args.log_levels with
  | none => simp [has_ambigous_logging_config, hll]
  | some m =>
      cases hs : args.stderr_log_level with
      | none => simp [has_ambigous_logging_config, hll, hs]
      | some s =>
          simp only [has_ambigous_logging_config, hll, hs, Option.isSome_some,
            Bool.and_true, Bool.true_and, Option.getD_some, List.any_eq_true,
            Option.some.injEq]
          constructor
          · rintro ⟨⟨k, v⟩, hmem, hk⟩
            have hknone : k = none := by
              cases k with
              | none => rfl
              | some _ => simp at hk
            subst hknone
            exact ⟨m, rfl, ⟨v, hmem⟩, ⟨s, rfl⟩⟩
          · rintro ⟨m2, hm2, ⟨v, hv⟩, _⟩
            subst hm2
            exact ⟨(none, v), hv, rfl⟩

/-- Claim C7: with a valid network id, `main` aborts with the
ambiguous-logging-configuration error exactly when the per-logger mapping has a
blanket (None-keyed) entry and an explicit stderr level is also supplied; when
it does abort this way, no worker process has been spawned. -/
theorem claim_C7_ambigous_logging_abort :
    ∀ (args : Args) (env : Env) (outcome : LoopOutcome),
      args.network_id ∈ PRECONFIGURED_NETWORKS →
      (((main args env outcome).2 = some MainError.ambigousLoggingConfig) ↔
        ∃ m, args.log_levels = some m ∧ (∃ v, (none, v) ∈ m) ∧
          ∃ s, args.stderr_log_level = some s) ∧
      ((main args env outcome).2 = some MainError.ambigousLoggingConfig →
        Effect.processSpawn ∉ (main args env outcome).1) := by
  intro args env outcome h
  rw [← has_ambigous_iff]
  cases hA : has_ambigous_logging_config args <;>
  cases hC : env.config_parse_ambigious <;>
  cases hD : env.data_dir_ready <;>
  cases hI : env.init_outcome <;>
  cases hT : log_levels_truthy args <;>
  by_cases hDb : env.db_engine = env.on_disk_database_engine <;>
  cases hF : args.func <;>
    simp [main, main_after_config, hA, hC, hD, hI, hT, hDb, hF, h]

/-- Witness for claim C7: a blanket per-logger level together with an explicit
stderr level aborts startup with the ambiguous-logging error and no spawn. -/
theorem claim_C7_ambigous_logging_abort_witness :
    (main argsAmbLog envDefault outcomeDefault).2
        = some MainError.ambigousLoggingConfig ∧
    Effect.processSpawn ∉ (main argsAmbLog envDefault outcomeDefault).1 :=
  have h := claim_C7_ambigous_logging_abort argsAmbLog envDefault outcomeDefault
    (by decide)
  have he : (main argsAmbLog envDefault outcomeDefault).2
      = some MainError.ambigousLoggingConfig :=
    h.1.mpr ⟨[(none, 5)], rfl, ⟨5, by decide⟩, ⟨10, rfl⟩⟩
  ⟨he, h.2 he⟩

/-- Claim C8: when data-directory setup is reached and fails, the failure
surfaces as exactly one of the two distinguished fatal errors — the
ambiguous-filesystem message or the missing-path message naming the missing
path — the two are never equal, and either aborts before any process is
spawned. -/
theorem claim_C8_data_dir_error_distinction :
    ∀ (args : Args) (env : Env) (outcome : LoopOutcome),
      args.network_id ∈ PRECONFIGURED_NETWORKS →
      has_ambigous_logging_config args = false →
      env.config_parse_ambigious = false →
      env.data_dir_ready = false →
      (env.init_outcome = InitOutcome.ambigiousFileSystem →
        (main args env outcome).2 = some MainError.ambigiousFilesystem ∧
        (MainError.ambigiousFilesystem).message = TRINITY_AMBIGIOUS_FILESYSTEM_INFO) ∧
      (∀ p, env.init_outcome = InitOutcome.missingPath p →
        (main args env outcome).2 = some (MainError.missingPath p) ∧
        ∃ u v, (MainError.missingPath p).message = u ++ p ++ v) ∧
      (∀ p, MainError.ambigiousFilesystem ≠ MainError.missingPath p ∧
        (MainError.ambigiousFilesystem).message ≠ (MainError.missingPath p).message) ∧
      ((main args env outcome).2 = some MainError.ambigiousFilesystem ∨
          (∃ p, (main args env outcome).2 = some (MainError.missingPath p)) →
        Effect.processSpawn ∉ (main args env outcome).1) := by
  intro args env outcome h hA hC hD
  refine ⟨?_, ?_, ?_, ?_⟩
  · intro hI
    exact ⟨by simp [main, hA, hC, hD, hI, h], rfl⟩
  · intro p hI
    refine ⟨by simp [main, hA, hC, hD, hI, h], ?_⟩
    exact ⟨"\nIt appears that ",
      " does not exist. Trinity does not attempt to create directories outside of its root path. Either manually create the path or ensure you are using a data directory inside the XDG_TRINITY_ROOT path",
      rfl⟩
  · intro p
    refine ⟨by simp, ?_⟩
    intro hEq
    have h1 : (MainError.ambigiousFilesystem.message).data.head? = some 'C' := rfl
    have h2 : ((MainError.missingPath p).message).data.head? = some '\n' := rfl
    rw [hEq, h2] at h1
    simp at h1
  · cases hI : env.init_outcome <;> cases hT : log_levels_truthy args <;>
    by_cases hDb : env.db_engine = env.on_disk_database_engine <;>
    cases hF : args.func <;>
      simp [main, main_after_config, hA, hC, hD, hI, hT, hDb, hF, h]

/-- Witness for claim C8: a missing path `/tmp/x` is reported with the
missing-path error, distinguishable from the ambiguous-filesystem error, and
no worker process is spawned. -/
theorem claim_C8_data_dir_error_distinction_witness :
    (main argsMainnet envMissing outcomeDefault).2
        = some (MainError.missingPath "/tmp/x") ∧
    Effect.processSpawn ∉ (main argsMainnet envMissing outcomeDefault).1 ∧
    MainError.ambigiousFilesystem ≠ MainError.missingPath "/tmp/x" :=
  have h := claim_C8_data_dir_error_distinction argsMainnet envMissing
    outcomeDefault (by decide) rfl rfl rfl
  ⟨(h.2.1 "/tmp/x" rfl).1,
   h.2.2.2 (Or.inr ⟨"/tmp/x", (h.2.1 "/tmp/x" rfl).1⟩),
   (h.2.2.1 "/tmp/x").1⟩

/-- Claim C10: when the parsed arguments carry a plugin-provided subcommand,
`main` never runs `trinity_boot` — the log listener is not started, the broker
is never started, no worker is spawned, no shutdown handler is subscribed —
and, when no validation error aborts first, the subcommand function is
invoked. -/
theorem claim_C10_subcommand_skips_boot :
    ∀ (args : Args) (env : Env) (outcome : LoopOutcome),
      args.func = some () →
      Effect.listenerStart ∉ (main args env outcome).1 ∧
      Effect.eventBusStart ∉ (main args env outcome).1 ∧
      Effect.processSpawn ∉ (main args env outcome).1 ∧
      Effect.subscribeShutdown ∉ (main args env outcome).1 ∧
      ((main args env outcome).2 = none →
        Effect.callFunc ∈ (main args env outcome).1) := by
  intro args env outcome hfunc
  by_cases hN : args.network_id ∈ PRECONFIGURED_NETWORKS <;>
  cases hA : has_ambigous_logging_config args <;>
  cases hC : env.config_parse_ambigious <;>
  cases hD : env.data_dir_ready <;>
  cases hI : env.init_outcome <;>
  cases hT : log_levels_truthy args <;>
  by_cases hDb : env.db_engine = env.on_disk_database_engine <;>
    simp [main, main_after_config, hN, hA, hC, hD, hI, hT, hDb, hfunc]

/-- Witness for claim C10: with a subcommand present and a clean environment,
the subcommand runs and no boot effect is performed. -/
theorem claim_C10_subcommand_skips_boot_witness :
    Effect.callFunc ∈ (main argsFunc envDefault outcomeDefault).1 ∧
    Effect.processSpawn ∉ (main argsFunc envDefault outcomeDefault).1 ∧
    Effect.listenerStart ∉ (main argsFunc envDefault outcomeDefault).1 :=
  have h := claim_C10_subcommand_skips_boot argsFunc envDefault outcomeDefault rfl
  ⟨h.2.2.2.2 (by decide), h.2.2.1, h.1⟩

end Trinity
